import Mathlib

/-!
Verification of the multi-provider AI gateway in this repository against its
natural-language specification.  The gateway's pure decision logic — prefix
routing, retry/backoff, bearer-token auth, rate-limiter gating, key-pool
draws, model-table flattening and error-response shaping — is shallowly
embedded below, translated function-by-function from the JavaScript/TypeScript
sources (backend/routes/chat.js, embeddings.js, images.js, audio.js,
middleware/auth.js, server.js, and the Next.js api routes).
-/

namespace PantherGateway

/-! ## JavaScript string primitives

The sources use String.prototype.startsWith and String.prototype.includes.
Both are modelled on the character list of the string; for the ASCII model
identifiers and key names involved this agrees with JS code-unit semantics. -/

/-- Is the first list a (literal) leading segment of the second? -/
def charsPrefixOf : List Char → List Char → Bool
  | [], _ => true
  | _ :: _, [] => false
  | p :: ps, c :: cs => p == c && charsPrefixOf ps cs

/-- JS s.startsWith(pat). -/
def jsStartsWith (s pat : String) : Bool :=
  charsPrefixOf pat.toList s.toList

/-- Does sub occur as a contiguous segment of the list? -/
def listContainsSub (sub : List Char) : List Char → Bool
  | [] => sub.isEmpty
  | c :: cs => charsPrefixOf sub (c :: cs) || listContainsSub sub cs

/-- JS s.includes(sub). -/
def jsIncludes (s sub : String) : Bool :=
  listContainsSub sub.toList s.toList

/-! ## Resilient caller: makeApiCall

From the Next.js routes (api/search, api/chat, api/image — the helper is
duplicated verbatim in each):

    async function makeApiCall(url, options, maxRetries = 3) {
      for (let attempt = 1; attempt <= maxRetries; attempt++) {
        try {
          const response = await fetch(url, options);
          if (response.ok || response.status !== 429) { return response; }
          if (attempt < maxRetries) { await sleep(1000 * attempt); }
        } catch (error) {
          if (attempt === maxRetries) throw error;
          await sleep(1000 * attempt);
        }
      }
      throw new Error('Max retries exceeded');
    }

The network is modelled as a map from attempt number to the attempt's
outcome (a response, or a thrown transport error).  The embedding returns
the call result together with the number of attempts made and the list of
backoff waits (in ms) performed, in order. -/

structure HttpResponse where
  status : Nat
  body : String
  deriving DecidableEq, Repr

/-- fetch's Response.ok: status in the inclusive range 200–299. -/
def respOk (r : HttpResponse) : Bool :=
  200 ≤ r.status && r.status ≤ 299

/-- Outcome of one fetch: a response, or a thrown transport-level error. -/
inductive FetchOutcome where
  | resp (r : HttpResponse)
  | exn (msg : String)
  deriving DecidableEq, Repr

inductive CallResult where
  /-- The response returned to the caller. -/
  | success (r : HttpResponse)
  /-- A transport error propagated out of the final attempt. -/
  | raised (msg : String)
  /-- The final throw new Error('Max retries exceeded') after the loop. -/
  | maxRetriesExceeded
  deriving DecidableEq, Repr

/-- The retry loop of makeApiCall, from iteration attempt onward; rem is the
number of loop iterations left (maxRetries + 1 - attempt at every call site),
so the recursion is structural.  waits accumulates the backoff sleeps. -/
def makeApiCallFrom (net : ℕ → FetchOutcome) (maxRetries : ℕ) :
    ℕ → ℕ → List ℕ → CallResult × ℕ × List ℕ
  | attempt, 0, waits => (.maxRetriesExceeded, attempt - 1, waits)
  | attempt, rem + 1, waits =>
    match net attempt with
    | .resp r =>
      if respOk r || r.status != 429 then (.success r, attempt, waits)
      else if attempt < maxRetries then
        makeApiCallFrom net maxRetries (attempt + 1) rem (waits ++ [1000 * attempt])
      else
        makeApiCallFrom net maxRetries (attempt + 1) rem waits
    | .exn e =>
      if attempt == maxRetries then (.raised e, attempt, waits)
      else makeApiCallFrom net maxRetries (attempt + 1) rem (waits ++ [1000 * attempt])

/-- makeApiCall(url, options, maxRetries): run the loop from attempt 1. -/
def makeApiCall (net : ℕ → FetchOutcome) (maxRetries : ℕ) : CallResult × ℕ × List ℕ :=
  makeApiCallFrom net maxRetries 1 maxRetries []

/-- Test network: 429 on attempts 1 and 2, then 200. -/
def net429x2then200 : ℕ → FetchOutcome := fun a =>
  if a ≤ 2 then .resp ⟨429, "rate limited"⟩ else .resp ⟨200, "ok-body"⟩

/-- Test network: a single terminal 400 on every attempt. -/
def netBadRequest : ℕ → FetchOutcome := fun _ => .resp ⟨400, "bad request"⟩

/-- Test network: transport failure on every attempt. -/
def netAllExn : ℕ → FetchOutcome := fun _ => .exn "ECONNREFUSED"

/-- Test network: 429 on every attempt. -/
def netAll429 : ℕ → FetchOutcome := fun _ => .resp ⟨429, "rate limited"⟩

/-! ## Router / Dispatcher

The four capability route handlers (backend/routes/chat.js, images.js,
audio.js, embeddings.js) each select the upstream provider by an ordered
if/else chain of model.startsWith(...) tests, falling through to a 400
"Unsupported ..." JSON error.  The embedding keeps only the routing
decision (which branch fires); building the upstream request is the
selected branch's body. -/

/-- The upstream adapter branch a route handler can select.  selfNamed is
the chat route's last branch, which derives the upstream host from the
model name itself (deepseek/starcoder/phi/falcon/yi). -/
inductive Provider where
  | openai | anthropic | google | metaAI | cohere | mistral | qwen | selfNamed
  | huggingface | stability | midjourney | flux | kandinsky
  deriving DecidableEq, Repr

/-- What a route handler decides before any upstream call. -/
inductive RouteOutcome where
  | routed (p : Provider)
  | clientError (status : ℕ) (msg : String)
  deriving DecidableEq, Repr

/-- POST /v1/chat/completions provider selection (routes/chat.js). -/
def chatCompletionsRoute (model : String) : RouteOutcome :=
  if jsStartsWith model "gpt" || jsStartsWith model "text-" ||
      jsStartsWith model "code-" || jsStartsWith model "dall-e" then .routed .openai
  else if jsStartsWith model "claude" then .routed .anthropic
  else if jsStartsWith model "gemini" || jsStartsWith model "palm" ||
      jsStartsWith model "bert" || jsStartsWith model "t5" then .routed .google
  else if jsStartsWith model "llama" || jsStartsWith model "codellama" then .routed .metaAI
  else if jsStartsWith model "command" || jsStartsWith model "base" then .routed .cohere
  else if jsStartsWith model "mistral" || jsStartsWith model "mixtral" ||
      jsStartsWith model "codestral" then .routed .mistral
  else if jsStartsWith model "qwen" then .routed .qwen
  else if jsStartsWith model "deepseek" || jsStartsWith model "starcoder" ||
      jsStartsWith model "phi" || jsStartsWith model "falcon" ||
      jsStartsWith model "yi" then .routed .selfNamed
  else .clientError 400 "Unsupported model"

/-- POST /v1/images/generations provider selection (routes/images.js). -/
def imagesGenerationsRoute (model : String) : RouteOutcome :=
  if jsStartsWith model "dall-e" then .routed .openai
  else if jsStartsWith model "stable-diffusion" then .routed .stability
  else if jsStartsWith model "midjourney" then .routed .midjourney
  else if jsStartsWith model "imagen" then .routed .google
  else if jsStartsWith model "flux" then .routed .flux
  else if jsStartsWith model "kandinsky" then .routed .kandinsky
  else .clientError 400 "Unsupported image model"

/-- POST /v1/audio/transcriptions provider selection (routes/audio.js). -/
def audioTranscriptionsRoute (model : String) : RouteOutcome :=
  if jsStartsWith model "whisper" then .routed .openai
  else if jsStartsWith model "google" then .routed .google
  else .clientError 400 "Unsupported transcription model"

/-- POST /v1/embeddings provider selection (routes/embeddings.js).  Note the
declared order: the "text-embedding" OpenAI test comes before the
"text-embedding-004" Google test. -/
def embeddingsRoute (model : String) : RouteOutcome :=
  if jsStartsWith model "text-embedding" then .routed .openai
  else if jsStartsWith model "embed-" then .routed .cohere
  else if jsStartsWith model "text-embedding-004" then .routed .google
  else if jsStartsWith model "sentence-transformers" || jsStartsWith model "e5-" then
    .routed .huggingface
  else .clientError 400 "Unsupported embedding model"

inductive Capability where
  | chat | image | audio | embedding
  deriving DecidableEq, Repr

/-- The route handler serving each capability. -/
def capHandler : Capability → String → RouteOutcome
  | .chat, m => chatCompletionsRoute m
  | .image, m => imagesGenerationsRoute m
  | .audio, m => audioTranscriptionsRoute m
  | .embedding, m => embeddingsRoute m

/-- Modelled from the spec's Router contract for comparison with the code:
walk an ordered rule table and return the adapter of the first rule whose
pattern is a literal leading segment of the model identifier. -/
def firstMatch (m : String) : List (String × Provider) → Option Provider
  | [] => none
  | (pat, a) :: rest => if jsStartsWith m pat then some a else firstMatch m rest

/-- Each handler's if/else chain re-read as an ordered rule table, one rule
per startsWith test, in source order. -/
def capRules : Capability → List (String × Provider)
  | .chat =>
    [("gpt", .openai), ("text-", .openai), ("code-", .openai), ("dall-e", .openai),
     ("claude", .anthropic),
     ("gemini", .google), ("palm", .google), ("bert", .google), ("t5", .google),
     ("llama", .metaAI), ("codellama", .metaAI),
     ("command", .cohere), ("base", .cohere),
     ("mistral", .mistral), ("mixtral", .mistral), ("codestral", .mistral),
     ("qwen", .qwen),
     ("deepseek", .selfNamed), ("starcoder", .selfNamed), ("phi", .selfNamed),
     ("falcon", .selfNamed), ("yi", .selfNamed)]
  | .image =>
    [("dall-e", .openai), ("stable-diffusion", .stability), ("midjourney", .midjourney),
     ("imagen", .google), ("flux", .flux), ("kandinsky", .kandinsky)]
  | .audio => [("whisper", .openai), ("google", .google)]
  | .embedding =>
    [("text-embedding", .openai), ("embed-", .cohere), ("text-embedding-004", .google),
     ("sentence-transformers", .huggingface), ("e5-", .huggingface)]

/-- The 400 error message each capability's handler returns when no branch
matches. -/
def unsupportedMessage : Capability → String
  | .chat => "Unsupported model"
  | .image => "Unsupported image model"
  | .audio => "Unsupported transcription model"
  | .embedding => "Unsupported embedding model"

/-! ## Auth middleware (middleware/auth.js) -/

/-- JS s.split(sep) for a one-character separator, on the character list:
always at least one (possibly empty) field. -/
def jsSplitChar (sep : Char) : List Char → List (List Char)
  | [] => [[]]
  | c :: cs =>
    match jsSplitChar sep cs with
    | [] => [[]]
    | grp :: rest => if c == sep then [] :: grp :: rest else (c :: grp) :: rest

/-- authHeader.split(' ')[1] — the token extracted by the middleware. -/
def bearerToken (h : String) : String :=
  ⟨(jsSplitChar ' ' h.toList).getD 1 []⟩

inductive AuthResult where
  | reject (status : ℕ) (msg : String)
  | authorized (user : String)
  deriving DecidableEq, Repr

/-- middleware/auth.js: reject 401 Unauthorized when the Authorization
header is absent (or falsy) or does not start with "Bearer "; reject 401
Invalid API key when the extracted token is not a key in the APIKey store
(modelled as an association list key ↦ user); otherwise attach the owning
user. -/
def auth (store : List (String × String)) (authHeader : Option String) : AuthResult :=
  match authHeader with
  | none => .reject 401 "Unauthorized"
  | some h =>
    if !jsStartsWith h "Bearer " then .reject 401 "Unauthorized"
    else
      match store.find? (fun kv => kv.1 == bearerToken h) with
      | none => .reject 401 "Invalid API key"
      | some kv => .authorized kv.2

/-- A /v1 route as mounted in routes/chat.js etc.: router.use(auth) runs the
middleware first; only an authorized request reaches the capability
handler.  The Bool records whether the router/adapter logic ran at all. -/
def v1Dispatch (store : List (String × String)) (cap : Capability) (model : String)
    (authHeader : Option String) : RouteOutcome × Bool :=
  match auth store authHeader with
  | .reject s msg => (.clientError s msg, false)
  | .authorized _ => (capHandler cap model, true)

/-! ## Rate limiter (server.js) -/

structure LimiterConfig where
  windowMs : ℕ
  maxRequests : ℕ
  skipAll : Bool
  deriving DecidableEq, Repr

/-- server.js limiter configuration: windowMs 15*60*1000, max 100 per IP,
skip when NODE_ENV is development. -/
def limiterConfig (nodeEnv : String) : LimiterConfig :=
  { windowMs := 15 * 60 * 1000
    maxRequests := 100
    skipAll := nodeEnv == "development" }

structure LimiterState where
  windowStart : ℕ
  counts : List (String × ℕ)
  deriving DecidableEq, Repr

/-- The per-IP hit count recorded in the current window (0 when absent). -/
def lookupCount (counts : List (String × ℕ)) (ip : String) : ℕ :=
  ((counts.find? (fun kv => kv.1 == ip)).map Prod.snd).getD 0

/-- Record a new count for ip, replacing any existing entry. -/
def setCount : List (String × ℕ) → String → ℕ → List (String × ℕ)
  | [], ip, n => [(ip, n)]
  | kv :: rest, ip, n =>
    if kv.1 == ip then (ip, n) :: rest else kv :: setCount rest ip n

/-- Modelled from the spec: express-rate-limit (a library dependency, not in
the repository) keeps a process-wide fixed window; each inbound request
increments the caller IP's counter for the current window and is allowed
iff the incremented count is within max; the counters reset when the
window elapses; a skip predicate bypasses the limiter entirely.  The
configuration values come from server.js via limiterConfig. -/
def rateLimitStep (cfg : LimiterConfig) (st : LimiterState) (ip : String) (now : ℕ) :
    Bool × LimiterState :=
  if cfg.skipAll then (true, st)
  else
    let st' := if st.windowStart + cfg.windowMs ≤ now then
        { windowStart := now, counts := [] } else st
    let c := lookupCount st'.counts ip + 1
    (decide (c ≤ cfg.maxRequests), { st' with counts := setCount st'.counts ip c })

/-- server.js middleware order for /v1 routes: app.use(limiter) runs before
the routers (which begin with auth).  A request rejected by the limiter is
answered 429 and never reaches auth, router or adapter; the middle Bool
again records whether router/adapter logic ran. -/
def gatewayStep (nodeEnv : String) (store : List (String × String)) (st : LimiterState)
    (ip : String) (now : ℕ) (cap : Capability) (model : String)
    (hdr : Option String) : RouteOutcome × Bool × LimiterState :=
  let (allowed, st') := rateLimitStep (limiterConfig nodeEnv) st ip now
  if allowed then
    let (out, ran) := v1Dispatch store cap model hdr
    (out, ran, st')
  else (.clientError 429 "Too many requests", false, st')

/-- Run k identical requests from one IP at time now, returning the final
limiter state. -/
def runSameIp (nodeEnv : String) (store : List (String × String)) (cap : Capability)
    (model : String) (hdr : Option String) (ip : String) (now : ℕ) :
    ℕ → LimiterState → LimiterState
  | 0, st => st
  | k + 1, st =>
    runSameIp nodeEnv store cap model hdr ip now k
      (gatewayStep nodeEnv store st ip now cap model hdr).2.2

/-! ## Key pool manager (chatbot api/image/route.ts, api/chat/route.ts) -/

/-- getRandomApiKey(keys): null on an empty pool, otherwise
keys[Math.floor(Math.random() * keys.length)].  Math.random() is modelled
as the rational rand / denom with rand < denom, so the JS index
floor(random * n) is rand * n / denom in natural division. -/
def getRandomApiKey (keys : List String) (rand denom : ℕ) : Option String :=
  if keys.length = 0 then none
  else keys[rand * keys.length / denom]?

/-- The image route's draw: const a4fKey = getRandomApiKey(a4fKeys);
if (!a4fKey) throw new Error('No A4F API keys available').  JS falsiness
makes both null and the empty string throw. -/
def drawA4fKey (keys : List String) (rand denom : ℕ) : Except String String :=
  match getRandomApiKey keys rand denom with
  | none => .error "No A4F API keys available"
  | some k => if k = "" then .error "No A4F API keys available" else .ok k

/-! ## Upstream error surfacing (routes/chat.js catch block) -/

/-- What axios raises on a non-2xx upstream reply: error.response carries
the upstream status and body when a reply arrived; error.message and
error.stack are always present. -/
structure AxiosUpstreamResponse where
  status : ℕ
  data : String
  deriving DecidableEq, Repr

structure AxiosError where
  response : Option AxiosUpstreamResponse
  message : String
  stack : String
  deriving DecidableEq, Repr

/-- The {error, details?} JSON body every failure response carries. -/
structure ErrorBody where
  error : String
  details : Option String
  deriving DecidableEq, Repr

/-- routes/chat.js catch:
res.status(500).json({ error: error.response?.data || error.message }).
JS || falls back to message when the upstream body is falsy (empty). -/
def chatErrorResponse (e : AxiosError) : ℕ × ErrorBody :=
  (500,
    { error :=
        match e.response with
        | some r => if r.data = "" then e.message else r.data
        | none => e.message
      details := none })

/-- A concrete non-2xx upstream failure (provider replied 401 with a body). -/
def axiosErr0 : AxiosError :=
  { response := some { status := 401, data := "upstream rejected" }
    message := "Request failed with status code 401"
    stack := "Error: Request failed\n    at settle (axios.js:12)" }

/-! ## Models listing (server.js GET /v1/models and the Next.js
nextjs-app api/models route) -/

/-- JSON-ish values occurring in a models-listing entry. -/
inductive JsonVal where
  | str (s : String)
  | num (q : ℚ)
  | jsNull
  | pricingObj (input output : ℚ)
  deriving DecidableEq, Repr

abbrev JsonObj := List (String × JsonVal)

/-- category ↦ provider ↦ model identifiers, as in models.json. -/
abbrev ModelTable := List (String × List (String × List String))

/-- The inner forEach over a category's providers. -/
def flattenProviders (f : String → String → String → α) (cat : String) :
    List (String × List String) → List α
  | [] => []
  | (prov, ms) :: rest => ms.map (f cat prov) ++ flattenProviders f cat rest

/-- The nested forEach push loops of both models handlers: visit every
(category, provider, model) occurrence in declared order. -/
def flattenTable (f : String → String → String → α) : ModelTable → List α
  | [] => []
  | (cat, provs) :: rest => flattenProviders f cat provs ++ flattenTable f rest

/-- The declared (category, provider, model) occurrences, in order. -/
def declaredTriples (tbl : ModelTable) : List (String × String × String) :=
  flattenTable (fun c p m => (c, p, m)) tbl

/-- One entry pushed by server.js GET /v1/models:
{id, object:'model', created: Date.now(), owned_by, category}. -/
def expressModelEntry (ts : ℕ) (cat prov m : String) : JsonObj :=
  [("id", .str m), ("object", .str "model"), ("created", .num ts),
   ("owned_by", .str prov), ("category", .str cat)]

/-- server.js GET /v1/models: flatten models.json into entries. -/
def expressModelsHandler (tbl : ModelTable) (ts : ℕ) : List JsonObj :=
  flattenTable (expressModelEntry ts) tbl

/-- nextjs-app models route: pricing_tier is 'pro' exactly when the model id
includes gpt-4, claude-3 or dall-e-3, else 'free'. -/
def nextPricingTier (m : String) : String :=
  if jsIncludes m "gpt-4" || jsIncludes m "claude-3" || jsIncludes m "dall-e-3" then "pro"
  else "free"

/-- nextjs-app models route: pricing is {input: 0.002, output: 0.002} for
'pro' models and null otherwise. -/
def nextPricing (m : String) : JsonVal :=
  if jsIncludes m "gpt-4" || jsIncludes m "claude-3" || jsIncludes m "dall-e-3" then
    .pricingObj (2 / 1000) (2 / 1000)
  else .jsNull

/-- One entry pushed by the Next.js models route. -/
def nextModelEntry (ts : ℕ) (cat prov m : String) : JsonObj :=
  [("id", .str m), ("object", .str "model"), ("created", .num ts),
   ("owned_by", .str prov), ("category", .str cat),
   ("pricing_tier", .str (nextPricingTier m)), ("pricing", nextPricing m)]

/-- nextjs-app GET api/models: flatten the static tables into entries. -/
def nextModelsHandler (tbl : ModelTable) (ts : ℕ) : List JsonObj :=
  flattenTable (nextModelEntry ts) tbl

/-- A one-occurrence model table used for concrete checks. -/
def tblGpt4 : ModelTable := [("chat", [("openai", ["gpt-4"])])]

/-- A three-occurrence model table with distinct declared triples. -/
def tblWitness : ModelTable :=
  [("chat", [("openai", ["gpt-4", "gpt-3.5-turbo"]), ("anthropic", ["claude-3-opus"])])]

/-- A limiter state in which one IP has already made 100 requests in the
current window. -/
def stFull : LimiterState := { windowStart := 0, counts := [("9.9.9.9", 100)] }

/-! # Theorems -/

/-! ## Resilient caller -/

/-- If every attempt from attempt through maxRetries yields a 429 response,
the loop runs out of attempts and ends in the final throw. -/
theorem makeApiCallFrom_all429 (net : ℕ → FetchOutcome) (mr : ℕ) (r : HttpResponse)
    (h429 : r.status = 429) :
    ∀ rem attempt waits, attempt + rem = mr + 1 → 0 < attempt →
      (∀ a, attempt ≤ a → a ≤ mr → net a = .resp r) →
      (makeApiCallFrom net mr attempt rem waits).1 = .maxRetriesExceeded ∧
      (makeApiCallFrom net mr attempt rem waits).2.1 = mr := by
  intro rem
  induction rem with
  | zero =>
    intro attempt waits hsum _ _
    refine ⟨rfl, ?_⟩
    show attempt - 1 = mr
    omega
  | succ k ih =>
    intro attempt waits hsum hpos hall
    have hle : attempt ≤ mr := by omega
    have hresp := hall attempt le_rfl hle
    have hguard : (respOk r || r.status != 429) = false := by
      simp [respOk, h429]
    by_cases hlt : attempt < mr
    · have h := ih (attempt + 1) (waits ++ [1000 * attempt]) (by omega) (by omega)
        (fun a ha hb => hall a (by omega) hb)
      simpa [makeApiCallFrom, hresp, hguard, hlt] using h
    · have h := ih (attempt + 1) waits (by omega) (by omega)
        (fun a ha hb => hall a (by omega) hb)
      simpa [makeApiCallFrom, hresp, hguard, hlt] using h

/-- C2: an upstream response that is 2xx, or has any status other than 429,
is returned to the caller after exactly one attempt, with no retry and no
backoff wait. -/
theorem makeApiCall_non429_single_attempt (net : ℕ → FetchOutcome) (maxRetries : ℕ)
    (r : HttpResponse) (hmr : 1 ≤ maxRetries) (h1 : net 1 = .resp r)
    (hterm : respOk r = true ∨ r.status ≠ 429) :
    makeApiCall net maxRetries = (.success r, 1, []) := by
  cases maxRetries with
  | zero => omega
  | succ m =>
    have hguard : (respOk r || r.status != 429) = true := by
      rcases hterm with h | h
      · simp [h]
      · simp [bne_iff_ne, h]
    simp [makeApiCall, makeApiCallFrom, h1, hguard]

/-- Witness for C2: a single upstream 400 is returned after exactly one
attempt with no waits. -/
theorem makeApiCall_non429_single_attempt_witness :
    makeApiCall netBadRequest 3 = (.success ⟨400, "bad request"⟩, 1, []) :=
  makeApiCall_non429_single_attempt netBadRequest 3 ⟨400, "bad request"⟩
    (by decide) rfl (Or.inr (by decide))

/-- C3: on upstream outcomes [429, 429, 200] the caller makes exactly three
attempts, waits 1000 ms then 2000 ms between them, and returns the 200
response. -/
theorem makeApiCall_429_429_200_three_attempts :
    makeApiCall net429x2then200 3 =
      (.success ⟨200, "ok-body"⟩, 3, [1000, 2000]) := by
  decide

/-- C4: a thrown transport error before the final attempt is retried with
the same attemptNumber x 1000 ms backoff as a 429 (conjunct 1, both step
equations share one right-hand side); on the final attempt the error
propagates (conjunct 2); and when every attempt yields a 429 the caller
ends in Max retries exceeded after maxRetries attempts rather than
returning the 429 (conjunct 3). -/
theorem makeApiCall_exception_retry_and_exhaustion :
    (∀ (net : ℕ → FetchOutcome) (mr attempt rem : ℕ) (waits : List ℕ)
        (e : String) (r : HttpResponse), attempt < mr →
      (net attempt = .exn e →
        makeApiCallFrom net mr attempt (rem + 1) waits =
          makeApiCallFrom net mr (attempt + 1) rem (waits ++ [1000 * attempt])) ∧
      (net attempt = .resp r → r.status = 429 →
        makeApiCallFrom net mr attempt (rem + 1) waits =
          makeApiCallFrom net mr (attempt + 1) rem (waits ++ [1000 * attempt]))) ∧
    (∀ (net : ℕ → FetchOutcome) (mr rem : ℕ) (waits : List ℕ) (e : String),
      net mr = .exn e →
      makeApiCallFrom net mr mr (rem + 1) waits = (.raised e, mr, waits)) ∧
    (∀ (net : ℕ → FetchOutcome) (mr : ℕ) (r : HttpResponse),
      0 < mr → r.status = 429 → (∀ a, 1 ≤ a → a ≤ mr → net a = .resp r) →
      (makeApiCall net mr).1 = .maxRetriesExceeded ∧ (makeApiCall net mr).2.1 = mr) := by
  refine ⟨?_, ?_, ?_⟩
  · intro net mr attempt rem waits e r hlt
    constructor
    · intro hexn
      have hne : (attempt == mr) = false := by
        simp [Nat.ne_of_lt hlt]
      simp [makeApiCallFrom, hexn, hne]
    · intro hresp h429
      have hguard : (respOk r || r.status != 429) = false := by
        simp [respOk, h429]
      simp [makeApiCallFrom, hresp, hguard, hlt]
  · intro net mr rem waits e hexn
    simp [makeApiCallFrom, hexn]
  · intro net mr r hpos h429 hall
    exact makeApiCallFrom_all429 net mr r h429 mr 1 [] (by omega) (by omega)
      (fun a ha hb => hall a ha hb)

/-- Witness for C4: with a network that always throws ECONNREFUSED, attempt
1 of 3 backs off 1000 ms and retries, and the final attempt propagates the
error; with a network that always answers 429, the default three-attempt
call ends in Max retries exceeded after 3 attempts. -/
theorem makeApiCall_exception_retry_and_exhaustion_witness :
    makeApiCallFrom netAllExn 3 1 3 [] = makeApiCallFrom netAllExn 3 2 2 [1000] ∧
    makeApiCallFrom netAllExn 3 3 1 [1000, 2000] =
      (.raised "ECONNREFUSED", 3, [1000, 2000]) ∧
    (makeApiCall netAll429 3).1 = .maxRetriesExceeded ∧
    (makeApiCall netAll429 3).2.1 = 3 := by
  have h := makeApiCall_exception_retry_and_exhaustion
  refine ⟨?_, ?_, ?_⟩
  · have h1 := (h.1 netAllExn 3 1 2 [] "ECONNREFUSED" ⟨429, ""⟩ (by decide)).1 rfl
    simpa using h1
  · have h2 := h.2.1 netAllExn 3 0 [1000, 2000] "ECONNREFUSED" rfl
    simpa using h2
  · exact h.2.2 netAll429 3 ⟨429, "rate limited"⟩ (by decide) rfl (fun a _ _ => rfl)

/-! ## Router / Dispatcher -/

/-- Dropping a trailing segment of the pattern preserves a positive
leading-segment test. -/
theorem charsPrefixOf_append (p q s : List Char) (h : charsPrefixOf (p ++ q) s = true) :
    charsPrefixOf p s = true := by
  induction p generalizing s with
  | nil => rfl
  | cons a as ih =>
    cases s with
    | nil => simp [charsPrefixOf] at h
    | cons b bs =>
      simp only [List.cons_append, charsPrefixOf, Bool.and_eq_true] at h ⊢
      exact ⟨h.1, ih bs h.2⟩

/-- Any identifier starting with "text-embedding-004" also starts with
"text-embedding". -/
theorem jsStartsWith_te004_te (m : String)
    (h : jsStartsWith m "text-embedding-004" = true) :
    jsStartsWith m "text-embedding" = true := by
  have hsplit : "text-embedding-004".toList = "text-embedding".toList ++ "-004".toList := by
    decide
  unfold jsStartsWith at h ⊢
  rw [hsplit] at h
  exact charsPrefixOf_append _ _ _ h

theorem firstMatch_nil (m : String) : firstMatch m [] = none := rfl

theorem firstMatch_cons (m pat : String) (a : Provider) (rest : List (String × Provider)) :
    firstMatch m ((pat, a) :: rest) =
      if jsStartsWith m pat then some a else firstMatch m rest := rfl

/-- Two consecutive rules with one adapter collapse to their disjunction. -/
theorem firstMatch_cons2 (m p1 p2 : String) (a : Provider)
    (rest : List (String × Provider)) :
    firstMatch m ((p1, a) :: (p2, a) :: rest) =
      if jsStartsWith m p1 || jsStartsWith m p2 then some a
      else firstMatch m rest := by
  rw [firstMatch_cons, firstMatch_cons]
  cases h1 : jsStartsWith m p1 <;> simp [h1]

theorem firstMatch_cons3 (m p1 p2 p3 : String) (a : Provider)
    (rest : List (String × Provider)) :
    firstMatch m ((p1, a) :: (p2, a) :: (p3, a) :: rest) =
      if jsStartsWith m p1 || jsStartsWith m p2 || jsStartsWith m p3 then some a
      else firstMatch m rest := by
  rw [firstMatch_cons, firstMatch_cons2]
  cases h1 : jsStartsWith m p1 <;> simp [h1]

theorem firstMatch_cons4 (m p1 p2 p3 p4 : String) (a : Provider)
    (rest : List (String × Provider)) :
    firstMatch m ((p1, a) :: (p2, a) :: (p3, a) :: (p4, a) :: rest) =
      if jsStartsWith m p1 || jsStartsWith m p2 || jsStartsWith m p3 ||
          jsStartsWith m p4 then some a
      else firstMatch m rest := by
  rw [firstMatch_cons, firstMatch_cons3]
  cases h1 : jsStartsWith m p1 <;> simp [h1]

theorem firstMatch_cons5 (m p1 p2 p3 p4 p5 : String) (a : Provider)
    (rest : List (String × Provider)) :
    firstMatch m ((p1, a) :: (p2, a) :: (p3, a) :: (p4, a) :: (p5, a) :: rest) =
      if jsStartsWith m p1 || jsStartsWith m p2 || jsStartsWith m p3 ||
          jsStartsWith m p4 || jsStartsWith m p5 then some a
      else firstMatch m rest := by
  rw [firstMatch_cons, firstMatch_cons4]
  cases h1 : jsStartsWith m p1 <;> simp [h1]

/-- C1: every capability handler is exactly first-match evaluation of its
declared ordered rule table — the first rule whose pattern is a literal
leading segment of the model identifier wins, independent of any later,
more specific rule — and when no rule matches the handler answers the
client-visible 400 Unsupported-model error for that capability, never a
default adapter. -/
theorem router_first_match_no_default (cap : Capability) (m : String) :
    capHandler cap m =
      match firstMatch m (capRules cap) with
      | some p => RouteOutcome.routed p
      | none => RouteOutcome.clientError 400 (unsupportedMessage cap) := by
  cases cap
  case chat =>
    simp only [capHandler, capRules, unsupportedMessage]
    unfold chatCompletionsRoute
    rw [firstMatch_cons4, firstMatch_cons, firstMatch_cons4, firstMatch_cons2,
      firstMatch_cons2, firstMatch_cons3, firstMatch_cons, firstMatch_cons5,
      firstMatch_nil]
    split_ifs <;> rfl
  case image =>
    simp only [capHandler, capRules, unsupportedMessage]
    unfold imagesGenerationsRoute
    rw [firstMatch_cons, firstMatch_cons, firstMatch_cons, firstMatch_cons,
      firstMatch_cons, firstMatch_cons, firstMatch_nil]
    split_ifs <;> rfl
  case audio =>
    simp only [capHandler, capRules, unsupportedMessage]
    unfold audioTranscriptionsRoute
    rw [firstMatch_cons, firstMatch_cons, firstMatch_nil]
    split_ifs <;> rfl
  case embedding =>
    simp only [capHandler, capRules, unsupportedMessage]
    unfold embeddingsRoute
    rw [firstMatch_cons, firstMatch_cons, firstMatch_cons, firstMatch_cons2,
      firstMatch_nil]
    split_ifs <;> rfl

/-- C10: the Google branch of the embeddings route is dead code — every
identifier starting with "text-embedding-004" is claimed by the earlier
OpenAI "text-embedding" rule, and no identifier at all reaches the Google
branch. -/
theorem embeddings_google_branch_unreachable :
    (∀ m : String, jsStartsWith m "text-embedding-004" = true →
      embeddingsRoute m = RouteOutcome.routed Provider.openai) ∧
    (∀ m : String, embeddingsRoute m ≠ RouteOutcome.routed Provider.google) := by
  constructor
  · intro m h
    have h' := jsStartsWith_te004_te m h
    simp [embeddingsRoute, h']
  · intro m hcontra
    by_cases h1 : jsStartsWith m "text-embedding" = true
    · simp [embeddingsRoute, h1] at hcontra
    · by_cases h2 : jsStartsWith m "embed-" = true
      · simp [embeddingsRoute, h1, h2] at hcontra
      · by_cases h3 : jsStartsWith m "text-embedding-004" = true
        · exact h1 (jsStartsWith_te004_te m h3)
        · by_cases h4 : (jsStartsWith m "sentence-transformers" || jsStartsWith m "e5-") = true
          · simp [embeddingsRoute, h1, h2, h3, h4] at hcontra
          · simp [embeddingsRoute, h1, h2, h3, h4] at hcontra

/-- Witness for C10: the literal model text-embedding-004 goes to the
OpenAI endpoint, not Google's. -/
theorem embeddings_google_branch_unreachable_witness :
    jsStartsWith "text-embedding-004" "text-embedding-004" = true ∧
    embeddingsRoute "text-embedding-004" = RouteOutcome.routed Provider.openai ∧
    embeddingsRoute "text-embedding-004" ≠ RouteOutcome.routed Provider.google :=
  ⟨by decide,
   embeddings_google_branch_unreachable.1 "text-embedding-004" (by decide),
   embeddings_google_branch_unreachable.2 "text-embedding-004"⟩

/-! ## Auth middleware -/

/-- C5: a /v1 request with a missing Authorization header, or one not
starting with "Bearer ", is rejected 401 Unauthorized; one whose extracted
bearer token is not a key in the APIKey store is rejected 401 Invalid API
key; in every rejection the router/adapter logic never runs (the dispatch
flag is false), so no upstream call can happen. -/
theorem auth_rejects_before_dispatch (store : List (String × String)) (cap : Capability)
    (model : String) (hdr : Option String) :
    (hdr = none →
      v1Dispatch store cap model hdr = (.clientError 401 "Unauthorized", false)) ∧
    (∀ h, hdr = some h → jsStartsWith h "Bearer " = false →
      v1Dispatch store cap model hdr = (.clientError 401 "Unauthorized", false)) ∧
    (∀ h, hdr = some h → jsStartsWith h "Bearer " = true →
      store.find? (fun kv => kv.1 == bearerToken h) = none →
      v1Dispatch store cap model hdr = (.clientError 401 "Invalid API key", false)) := by
  refine ⟨?_, ?_, ?_⟩
  · rintro rfl
    rfl
  · rintro h rfl hb
    simp [v1Dispatch, auth, hb]
  · rintro h rfl hb hfind
    simp [v1Dispatch, auth, hb, hfind]

/-- Witness for C5: with the store holding only sk-good, a missing header,
a non-Bearer header and an unknown bearer token are all rejected 401
before dispatch. -/
theorem auth_rejects_before_dispatch_witness :
    v1Dispatch [("sk-good", "user1")] .chat "gpt-4" none =
      (.clientError 401 "Unauthorized", false) ∧
    v1Dispatch [("sk-good", "user1")] .chat "gpt-4" (some "Token sk-good") =
      (.clientError 401 "Unauthorized", false) ∧
    v1Dispatch [("sk-good", "user1")] .chat "gpt-4" (some "Bearer sk-bad") =
      (.clientError 401 "Invalid API key", false) :=
  ⟨(auth_rejects_before_dispatch [("sk-good", "user1")] .chat "gpt-4" none).1 rfl,
   (auth_rejects_before_dispatch [("sk-good", "user1")] .chat "gpt-4"
      (some "Token sk-good")).2.1 "Token sk-good" rfl (by decide),
   (auth_rejects_before_dispatch [("sk-good", "user1")] .chat "gpt-4"
      (some "Bearer sk-bad")).2.2 "Bearer sk-bad" rfl (by decide) (by decide)⟩

/-! ## Rate limiter -/

/-- Recording a count for an IP makes it that IP's looked-up count. -/
theorem lookupCount_setCount (counts : List (String × ℕ)) (ip : String) (n : ℕ) :
    lookupCount (setCount counts ip n) ip = n := by
  induction counts with
  | nil => simp [setCount, lookupCount, List.find?]
  | cons kv rest ih =>
    by_cases h : kv.1 == ip
    · simp [setCount, lookupCount, List.find?, h]
    · simpa [setCount, lookupCount, List.find?, h] using ih

/-- Outside development mode and inside the current window, one gateway
step keeps the window anchor and increments the caller IP's count by one
(whether or not the request was allowed through). -/
theorem gatewayStep_increments (nodeEnv : String) (store : List (String × String))
    (st : LimiterState) (ip : String) (now : ℕ) (cap : Capability) (model : String)
    (hdr : Option String) (hdev : nodeEnv ≠ "development")
    (hwin : now < st.windowStart + 15 * 60 * 1000) :
    ((gatewayStep nodeEnv store st ip now cap model hdr).2.2).windowStart =
      st.windowStart ∧
    lookupCount ((gatewayStep nodeEnv store st ip now cap model hdr).2.2).counts ip =
      lookupCount st.counts ip + 1 := by
  have hskip : (nodeEnv == "development") = false := beq_eq_false_iff_ne.mpr hdev
  have hreset : ¬ (st.windowStart + 900000 ≤ now) := by omega
  rcases hv : v1Dispatch store cap model hdr with ⟨out, ran⟩
  constructor <;>
    simp [gatewayStep, rateLimitStep, limiterConfig, hskip, hreset, hv,
      apply_ite, lookupCount_setCount]

/-- Running k same-IP requests at the window anchor adds k to that IP's
count and keeps the anchor (outside development mode). -/
theorem runSameIp_count (nodeEnv : String) (store : List (String × String))
    (cap : Capability) (model : String) (hdr : Option String) (ip : String)
    (start : ℕ) (hdev : nodeEnv ≠ "development") :
    ∀ k st, st.windowStart = start →
      (runSameIp nodeEnv store cap model hdr ip start k st).windowStart = start ∧
      lookupCount (runSameIp nodeEnv store cap model hdr ip start k st).counts ip =
        lookupCount st.counts ip + k := by
  intro k
  induction k with
  | zero =>
    intro st hws
    simpa [runSameIp] using hws
  | succ n ih =>
    intro st hws
    have hwin : start < st.windowStart + 15 * 60 * 1000 := by omega
    have hstep := gatewayStep_increments nodeEnv store st ip start cap model hdr hdev
      (by omega)
    have hrec := ih (gatewayStep nodeEnv store st ip start cap model hdr).2.2
      (by rw [hstep.1, hws])
    refine ⟨by simpa [runSameIp] using hrec.1, ?_⟩
    have hcnt : lookupCount (runSameIp nodeEnv store cap model hdr ip start n
        (gatewayStep nodeEnv store st ip start cap model hdr).2.2).counts ip =
        (lookupCount st.counts ip + 1) + n := by
      rw [hrec.2, hstep.2]
    simp only [runSameIp]
    omega

/-- C6: the limiter is a process-wide fixed window of 15 minutes capped at
100 requests per source IP — k requests from one IP inside a window drive
its count to k (conjunct 1); once the count is 100, the next request from
that IP is answered 429 and neither auth, router nor any adapter runs
(conjunct 2); in development mode the limiter is skipped entirely and the
request passes straight to dispatch with the limiter state untouched
(conjunct 3). -/
theorem rate_limiter_window_and_dev_skip (nodeEnv : String)
    (store : List (String × String)) (cap : Capability) (model : String)
    (hdr : Option String) (ip : String) (now start : ℕ) (st : LimiterState) :
    (nodeEnv ≠ "development" → ∀ k,
      lookupCount (runSameIp nodeEnv store cap model hdr ip start k
        { windowStart := start, counts := [] }).counts ip = k) ∧
    (nodeEnv ≠ "development" → lookupCount st.counts ip = 100 →
      now < st.windowStart + 15 * 60 * 1000 →
      (gatewayStep nodeEnv store st ip now cap model hdr).1 =
        .clientError 429 "Too many requests" ∧
      (gatewayStep nodeEnv store st ip now cap model hdr).2.1 = false) ∧
    (nodeEnv = "development" →
      (gatewayStep nodeEnv store st ip now cap model hdr).1 =
        (v1Dispatch store cap model hdr).1 ∧
      (gatewayStep nodeEnv store st ip now cap model hdr).2.1 =
        (v1Dispatch store cap model hdr).2 ∧
      (gatewayStep nodeEnv store st ip now cap model hdr).2.2 = st) := by
  refine ⟨?_, ?_, ?_⟩
  · intro hdev k
    have h := runSameIp_count nodeEnv store cap model hdr ip start hdev k
      { windowStart := start, counts := [] } rfl
    simpa [lookupCount, List.find?] using h.2
  · intro hdev hcount hwin
    have hskip : (nodeEnv == "development") = false := beq_eq_false_iff_ne.mpr hdev
    have hreset : ¬ (st.windowStart + 900000 ≤ now) := by omega
    constructor <;>
      simp [gatewayStep, rateLimitStep, limiterConfig, hskip, hreset, hcount]
  · intro hdev
    have hskip : (nodeEnv == "development") = true := by
      simp [hdev]
    rcases hv : v1Dispatch store cap model hdr with ⟨out, ran⟩
    refine ⟨?_, ?_, ?_⟩ <;> simp [gatewayStep, rateLimitStep, limiterConfig, hskip, hv]

/-- Witness for C6: from a fresh window, 100 requests from one IP reach a
count of 100; with the count at 100 the next request is answered 429
without dispatch; in development mode the same request passes through with
the limiter state untouched. -/
theorem rate_limiter_window_and_dev_skip_witness :
    lookupCount (runSameIp "production" [] .chat "gpt-4" none "9.9.9.9" 0 100
      { windowStart := 0, counts := [] }).counts "9.9.9.9" = 100 ∧
    (gatewayStep "production" [] stFull "9.9.9.9" 1 .chat "gpt-4" none).1 =
      .clientError 429 "Too many requests" ∧
    (gatewayStep "production" [] stFull "9.9.9.9" 1 .chat "gpt-4" none).2.1 = false ∧
    (gatewayStep "development" [] stFull "9.9.9.9" 1 .chat "gpt-4" none).2.2 = stFull := by
  have h1 := (rate_limiter_window_and_dev_skip "production" [] .chat "gpt-4" none
    "9.9.9.9" 1 0 stFull).1 (by decide) 100
  have h2 := (rate_limiter_window_and_dev_skip "production" [] .chat "gpt-4" none
    "9.9.9.9" 1 0 stFull).2.1 (by decide) (by decide) (by norm_num)
  have h3 := (rate_limiter_window_and_dev_skip "development" [] .chat "gpt-4" none
    "9.9.9.9" 1 0 stFull).2.2 rfl
  exact ⟨h1, h2.1, h2.2, h3.2.2⟩

/-! ## Key pool manager -/

/-- C7: the key-pool draw on an empty pool yields null, which the caller
turns into the No-keys-available failure; on a non-empty pool the drawn
index floor(random * length) is always in bounds and the draw always
returns a member of the pool. -/
theorem getRandomApiKey_draw (keys : List String) (rand denom : ℕ) :
    (keys = [] → getRandomApiKey keys rand denom = none ∧
      drawA4fKey keys rand denom = .error "No A4F API keys available") ∧
    (keys ≠ [] → rand < denom →
      ∃ k, getRandomApiKey keys rand denom = some k ∧ k ∈ keys) := by
  constructor
  · rintro rfl
    exact ⟨rfl, rfl⟩
  · intro hne hrd
    have hlen : 0 < keys.length := List.length_pos.mpr hne
    have hdenom : 0 < denom := lt_of_le_of_lt (Nat.zero_le _) hrd
    have hidx : rand * keys.length / denom < keys.length := by
      rw [Nat.div_lt_iff_lt_mul hdenom]
      calc rand * keys.length < denom * keys.length :=
            Nat.mul_lt_mul_of_pos_right hrd hlen
        _ = keys.length * denom := Nat.mul_comm _ _
    refine ⟨keys[rand * keys.length / denom], ?_, List.getElem_mem hidx⟩
    simp [getRandomApiKey, Nat.pos_iff_ne_zero.mp hlen, List.getElem?_eq_getElem hidx]

/-- Witness for C7: the empty pool fails NoCredentialsAvailable, and a
two-key pool with random draw 1/3 returns a pool member. -/
theorem getRandomApiKey_draw_witness :
    (getRandomApiKey [] 0 1 = none ∧
      drawA4fKey [] 0 1 = .error "No A4F API keys available") ∧
    ∃ k, getRandomApiKey ["sk-a", "sk-b"] 1 3 = some k ∧ k ∈ ["sk-a", "sk-b"] :=
  ⟨(getRandomApiKey_draw [] 0 1).1 rfl,
   (getRandomApiKey_draw ["sk-a", "sk-b"] 1 3).2 (by decide) (by decide)⟩

/-! ## Upstream error surfacing -/

/-- C8 counterexample: for a concrete upstream 401 failure from the OpenAI
branch, the chat route's catch answers 500 with body {error: upstream
body} — the details field is none, so no provider detail (and no upstream
status) is attached, refuting the claimed structured UpstreamError
surfacing. -/
theorem chat_error_response_drops_provider :
    chatErrorResponse axiosErr0 =
      (500, { error := "upstream rejected", details := none }) ∧
    ¬ ∃ d, (chatErrorResponse axiosErr0).2.details = some d := by
  refine ⟨by decide, ?_⟩
  rintro ⟨d, hd⟩
  simp [chatErrorResponse, axiosErr0] at hd

/-- C8 amended: on an upstream failure the chat route answers 500 with an
{error, details?} JSON body whose details is always none; the error
payload is the upstream response body when one arrived and is non-empty,
otherwise the axios message; and the response never depends on the stack
trace. -/
theorem chat_error_response_shape (e : AxiosError) :
    (chatErrorResponse e).1 = 500 ∧
    (chatErrorResponse e).2.details = none ∧
    ((chatErrorResponse e).2.error = e.message ∨
      ∃ r, e.response = some r ∧ r.data ≠ "" ∧ (chatErrorResponse e).2.error = r.data) ∧
    (∀ s, chatErrorResponse { e with stack := s } = chatErrorResponse e) := by
  refine ⟨rfl, rfl, ?_, fun s => rfl⟩
  rcases he : e.response with _ | r
  · left
    simp [chatErrorResponse, he]
  · by_cases hd : r.data = ""
    · left
      simp [chatErrorResponse, he, hd]
    · right
      exact ⟨r, rfl, hd, by simp [chatErrorResponse, he, hd]⟩

/-! ## Models listing -/

theorem flattenProviders_map (g : α → β) (f : String → String → String → α)
    (cat : String) (provs : List (String × List String)) :
    (flattenProviders f cat provs).map g =
      flattenProviders (fun c p m => g (f c p m)) cat provs := by
  induction provs with
  | nil => rfl
  | cons pv rest ih =>
    obtain ⟨prov, ms⟩ := pv
    simp [flattenProviders, List.map_append, List.map_map, Function.comp, ih]

theorem flattenTable_map (g : α → β) (f : String → String → String → α)
    (tbl : ModelTable) :
    (flattenTable f tbl).map g = flattenTable (fun c p m => g (f c p m)) tbl := by
  induction tbl with
  | nil => rfl
  | cons cv rest ih =>
    obtain ⟨cat, provs⟩ := cv
    simp [flattenTable, List.map_append, flattenProviders_map, ih]

/-- Every table flattening is the map of the entry builder over the
declared (category, provider, model) occurrences, in order. -/
theorem flattenTable_eq_map_triples (f : String → String → String → α)
    (tbl : ModelTable) :
    flattenTable f tbl = (declaredTriples tbl).map (fun t => f t.1 t.2.1 t.2.2) := by
  rw [declaredTriples, flattenTable_map]

/-- Distinct triples give distinct express entries (the id, owned_by and
category fields recover the triple). -/
theorem expressModelEntry_inj (ts : ℕ) : Function.Injective
    (fun t : String × String × String => expressModelEntry ts t.1 t.2.1 t.2.2) := by
  rintro ⟨c, p, m⟩ ⟨c', p', m'⟩ h
  simp only [expressModelEntry, List.cons.injEq, Prod.mk.injEq, JsonVal.str.injEq,
    and_true] at h
  simp_all

/-- Distinct triples give distinct Next.js entries. -/
theorem nextModelEntry_inj (ts : ℕ) : Function.Injective
    (fun t : String × String × String => nextModelEntry ts t.1 t.2.1 t.2.2) := by
  rintro ⟨c, p, m⟩ ⟨c', p', m'⟩ h
  simp only [nextModelEntry, List.cons.injEq, Prod.mk.injEq, JsonVal.str.injEq,
    and_true] at h
  simp_all

/-- C9 amended: both models handlers return exactly one entry per declared
(category, provider, model) occurrence, in declared order (conjuncts 1-2);
an express entry's keys are id, object, created, owned_by, category — no
pricing fields — while a Next.js entry additionally carries pricing_tier
and pricing (conjuncts 3-4); and when the declared triples are distinct
each listing is duplicate-free (conjunct 5). -/
theorem models_listing_flattening (tbl : ModelTable) (ts : ℕ) :
    expressModelsHandler tbl ts =
      (declaredTriples tbl).map (fun t => expressModelEntry ts t.1 t.2.1 t.2.2) ∧
    nextModelsHandler tbl ts =
      (declaredTriples tbl).map (fun t => nextModelEntry ts t.1 t.2.1 t.2.2) ∧
    (∀ e ∈ expressModelsHandler tbl ts,
      e.map Prod.fst = ["id", "object", "created", "owned_by", "category"]) ∧
    (∀ e ∈ nextModelsHandler tbl ts,
      e.map Prod.fst = ["id", "object", "created", "owned_by", "category",
        "pricing_tier", "pricing"]) ∧
    ((declaredTriples tbl).Nodup →
      (expressModelsHandler tbl ts).Nodup ∧ (nextModelsHandler tbl ts).Nodup) := by
  have hex : expressModelsHandler tbl ts =
      (declaredTriples tbl).map (fun t => expressModelEntry ts t.1 t.2.1 t.2.2) :=
    flattenTable_eq_map_triples (expressModelEntry ts) tbl
  have hnx : nextModelsHandler tbl ts =
      (declaredTriples tbl).map (fun t => nextModelEntry ts t.1 t.2.1 t.2.2) :=
    flattenTable_eq_map_triples (nextModelEntry ts) tbl
  refine ⟨hex, hnx, ?_, ?_, ?_⟩
  · intro e he
    rw [hex] at he
    obtain ⟨t, _, rfl⟩ := List.mem_map.mp he
    rfl
  · intro e he
    rw [hnx] at he
    obtain ⟨t, _, rfl⟩ := List.mem_map.mp he
    rfl
  · intro hnd
    rw [hex, hnx]
    exact ⟨hnd.map (expressModelEntry_inj ts), hnd.map (nextModelEntry_inj ts)⟩

/-- Witness for C9: on a concrete three-model table with distinct declared
triples, both listings are duplicate-free and the first express entry has
exactly the five pricing-free keys. -/
theorem models_listing_flattening_witness :
    (declaredTriples tblWitness).Nodup ∧
    ((expressModelsHandler tblWitness 0).headD [] ∈ expressModelsHandler tblWitness 0) ∧
    ((expressModelsHandler tblWitness 0).headD []).map Prod.fst =
      ["id", "object", "created", "owned_by", "category"] ∧
    (expressModelsHandler tblWitness 0).Nodup ∧
    (nextModelsHandler tblWitness 0).Nodup := by
  have h := models_listing_flattening tblWitness 0
  have hmem : (expressModelsHandler tblWitness 0).headD [] ∈
      expressModelsHandler tblWitness 0 := by decide
  exact ⟨by decide, hmem, h.2.2.1 _ hmem, (h.2.2.2.2 (by decide)).1,
    (h.2.2.2.2 (by decide)).2⟩

/-- C9 counterexample: the express GET /v1/models entry for the declared
occurrence (chat, openai, gpt-4) has exactly the keys id, object, created,
owned_by and category — pricing_tier is absent, refuting the claimed entry
shape for this handler. -/
theorem express_models_missing_pricing_tier :
    expressModelsHandler tblGpt4 7 =
      [[("id", .str "gpt-4"), ("object", .str "model"), ("created", .num 7),
        ("owned_by", .str "openai"), ("category", .str "chat")]] ∧
    "pricing_tier" ∉ ((expressModelsHandler tblGpt4 7).headD []).map Prod.fst := by
  constructor
  · rfl
  · decide

end PantherGateway
